import Mathlib

/-!
Shallow embedding of three modules of the MPAS-Analysis repository:

* `mpas_analysis/ocean/climatology_map_mld.py` — the `ClimatologyMapMLD`
  analysis-task constructor and `RemapObservedMLDClimatology.build_observational_dataset`;
* `mpas_analysis/shared/html/image_xml.py` — `write_image_xml`,
  `_provenance_command` and `_generate_thumbnails`;
* `mpas_analysis/shared/plot/oned.py` — `plot_1D`.

Python floats in the thumbnail geometry are modelled with exact rationals;
for image sizes the two representations agree (the compared ratios differ by
at least 1/1440 whenever they differ at all, far above double rounding error).
Python strings are modelled by `String`, except plot titles and labels, which
are modelled by `List Char` so truncation lemmas can use list reasoning.
-/

/-! ## ClimatologyMapMLD.__init__ (climatology_map_mld.py, lines 30-156) -/

/-- The errors the constructor can signal.  The source raises the Python
builtin `ValueError` (lines 67-69 and 74-76).  A `ConfigurationError`
constructor is included so that the specification's claimed exception type is
expressible; the embedded code never produces it. -/
inductive MLDError where
  | ValueError (msg : String)
  | ConfigurationError (msg : String)
deriving DecidableEq, Repr

/-- The configuration options `ClimatologyMapMLD.__init__` reads:
`seasons` and `comparisonGrids` from section `climatologyMapMLD`
(via `config.getExpression`), and the observations subdirectory
(via `build_config_full_path(config, 'oceanObservations', 'mldSubdirectory')`,
whose path construction lives outside `src/` and is modelled as an
uninterpreted string field). -/
structure MLDConfig where
  seasons : List String
  comparisonGrids : List String
  mldSubdirectory : String
deriving DecidableEq, Repr

/-- The reference-run climatology task: only its `config.get('runs', 'mainRunName')`
is read by the constructor (line 122-123). -/
structure RefClimatologyTask where
  mainRunName : String
deriving DecidableEq, Repr

/-- Arguments of the `RemapMpasClimatologySubtask` /
`RemapMpasReferenceClimatologySubtask` constructions (lines 80-87, 113-120). -/
structure RemapMpasClimatologySubtaskData where
  climatologyName : String
  variableList : List String
  comparisonGridNames : List String
  seasons : List String
deriving DecidableEq, Repr

/-- Arguments of the `RemapObservedMLDClimatology` construction (lines 101-104). -/
structure RemapObsSubtaskData where
  seasons : List String
  fileName : String
  outFileStem : String
  comparisonGridNames : List String
deriving DecidableEq, Repr

/-- The `set_plot_info` arguments (lines 140-152).  `outFileStem` stands for the
source's `outFileLabel` keyword. -/
structure PlotInfo where
  outFileLabel : String
  fieldNameInTitle : String
  mpasFieldName : String
  refFieldName : String
  refTitleLabel : String
  diffTitleLabel : String
  unitsLabel : String
  imageCaption : String
  galleryGroup : String
  groupSubtitle : Option String
  groupLink : String
  galleryName : Option String
deriving DecidableEq, Repr

/-- A child registered on the task by `add_subtask`: either the observation
remap subtask (line 105) or one plot subtask per (grid, season) pair
(line 154), the latter holding the remap subtasks wired into it
(lines 134-138). -/
inductive MLDSubtask where
  | remapObs (d : RemapObsSubtaskData)
  | plot (season : String) (comparisonGridName : String)
      (main : RemapMpasClimatologySubtaskData)
      (obs : Option RemapObsSubtaskData)
      (ref : Option RemapMpasClimatologySubtaskData)
      (info : PlotInfo)
deriving DecidableEq, Repr

/-- The constructed analysis task: base-class fields (lines 54-57), the three
remap subtask slots, and the registered children in registration order. -/
structure ClimatologyMapMLDTask where
  taskName : String
  componentName : String
  tags : List String
  remapClimatologySubtask : RemapMpasClimatologySubtaskData
  remapObservationsSubtask : Option RemapObsSubtaskData
  remapRefClimatologySubtask : Option RemapMpasClimatologySubtaskData
  subtasks : List MLDSubtask
deriving DecidableEq, Repr

/-- Construction/registration events, in source order, used to express that a
configuration failure happens before any subtask exists. -/
inductive SubtaskEvent where
  | constructedRemapMpas
  | constructedRemapObs
  | registeredRemapObs
  | constructedRemapRef
  | constructedPlot (season comparisonGridName : String)
  | registeredPlot (season comparisonGridName : String)
deriving DecidableEq, Repr

/-- `ClimatologyMapMLD.__init__` (lines 30-156), as a pure function from the
configuration and the optional reference-run task to the event trace together
with either the constructed task or the raised error.  The control flow
follows the source line by line: empty `seasons` raises first (line 67),
then empty `comparisonGrids` (line 74); the primary remap subtask is built
unconditionally (line 80); the branch on `mpasRefClimatologyTask is None`
picks the observation or the reference remap subtask (lines 89-129), and the
nested loops over comparison grids (outer) and seasons (inner) build and
register one plot subtask per pair (lines 131-154). -/
def climatologyMapMLD_init (config : MLDConfig)
    (mpasRefClimatologyTask : Option RefClimatologyTask) :
    List SubtaskEvent × Except MLDError ClimatologyMapMLDTask :=
  let fieldName := "mld"
  let sectionName := "climatologyMapMLD"
  let mpasFieldName := "timeMonthly_avg_dThreshMLD"
  let seasons := config.seasons
  if seasons.length = 0 then
    ([], .error (.ValueError
      ("config section " ++ sectionName ++
       " does not contain valid list of seasons")))
  else
    let comparisonGridNames := config.comparisonGrids
    if comparisonGridNames.length = 0 then
      ([], .error (.ValueError
        ("config section " ++ sectionName ++
         " does not contain valid list of comparison grids")))
    else
      let remapClimatologySubtask : RemapMpasClimatologySubtaskData :=
        { climatologyName := fieldName
          variableList := [mpasFieldName]
          comparisonGridNames := comparisonGridNames
          seasons := seasons }
      let branch :
          List SubtaskEvent × Option RemapObsSubtaskData ×
            Option RemapMpasClimatologySubtaskData × List MLDSubtask ×
            Option String × String × String × String × String :=
        match mpasRefClimatologyTask with
        | none =>
          let observationsDirectory := config.mldSubdirectory
          let obsFileName :=
            observationsDirectory ++ "/holtetalley_mld_climatology.nc"
          let refFieldName := "mld"
          let outFileLabel := "mldHolteTalleyARGO"
          let remapObservationsSubtask : RemapObsSubtaskData :=
            { seasons := seasons
              fileName := obsFileName
              outFileStem := refFieldName
              comparisonGridNames := comparisonGridNames }
          ([.constructedRemapObs, .registeredRemapObs],
           some remapObservationsSubtask, none,
           [MLDSubtask.remapObs remapObservationsSubtask],
           some "Observations: Holte-Talley ARGO",
           "Observations (HolteTalley density threshold MLD)",
           "Model - Observations", refFieldName, outFileLabel)
        | some refTask =>
          let remapRefClimatologySubtask : RemapMpasClimatologySubtaskData :=
            { climatologyName := fieldName
              variableList := [mpasFieldName]
              comparisonGridNames := comparisonGridNames
              seasons := seasons }
          let refRunName := refTask.mainRunName
          ([.constructedRemapRef],
           none, some remapRefClimatologySubtask, [],
           none,
           "Ref: " ++ refRunName,
           "Main - Reference", mpasFieldName, "mld")
      match branch with
      | (branchEvents, remapObservationsSubtask, remapRefClimatologySubtask,
         branchSubtasks, galleryName, refTitleLabel, diffTitleLabel,
         refFieldName, outFileLabel) =>
        let info : PlotInfo :=
          { outFileLabel := outFileLabel
            fieldNameInTitle := "MLD"
            mpasFieldName := mpasFieldName
            refFieldName := refFieldName
            refTitleLabel := refTitleLabel
            diffTitleLabel := diffTitleLabel
            unitsLabel := "m"
            imageCaption := "Mean Mixed-Layer Depth"
            galleryGroup := "Mixed-Layer Depth"
            groupSubtitle := none
            groupLink := "mld"
            galleryName := galleryName }
        let plotSubtasks : List MLDSubtask :=
          comparisonGridNames.flatMap fun comparisonGridName =>
            seasons.map fun season =>
              MLDSubtask.plot season comparisonGridName
                remapClimatologySubtask remapObservationsSubtask
                remapRefClimatologySubtask info
        let plotEvents : List SubtaskEvent :=
          comparisonGridNames.flatMap fun comparisonGridName =>
            seasons.flatMap fun season =>
              [.constructedPlot season comparisonGridName,
               .registeredPlot season comparisonGridName]
        ([SubtaskEvent.constructedRemapMpas] ++ branchEvents ++ plotEvents,
         .ok { taskName := "climatologyMapMLD"
               componentName := "ocean"
               tags := ["climatology", "horizontalMap", fieldName]
               remapClimatologySubtask := remapClimatologySubtask
               remapObservationsSubtask := remapObservationsSubtask
               remapRefClimatologySubtask := remapRefClimatologySubtask
               subtasks := branchSubtasks ++ plotSubtasks })

/-- Whether a constructor outcome is a `ConfigurationError`. -/
def isConfigurationError :
    Except MLDError ClimatologyMapMLDTask → Bool
  | .error (.ConfigurationError _) => true
  | _ => false

/-- Projection selecting the plot subtasks among the registered children and
returning their (comparisonGridName, season) pair. -/
def plotPairOf : MLDSubtask → Option (String × String)
  | .plot season comparisonGridName _ _ _ _ => some (comparisonGridName, season)
  | _ => none

/-! ## RemapObservedMLDClimatology.build_observational_dataset
(climatology_map_mld.py, lines 198-239)

The xarray data set is modelled as named integer-valued variables split into
data variables and coordinates, plus the size of the month dimension
(`iMONTH`, renamed `Time`).  Only integer payloads matter to the claims, so
all variable values are `List Int`; the `lat`/`lon`/`mld_dt_mean` payloads are
carried around untouched and never inspected.  The `iLAT`/`iLON` dimensions,
which no claim mentions, are not tracked. -/

/-- The raw Holte-Talley observational file: a `month` variable, an integer
month index variable `iMONTH` (both on the `iMONTH` dimension), plus `lat`,
`lon` and `mld_dt_mean`. -/
structure RawMLDFile where
  month : List Int
  iMONTH : List Int
  lat : List Int
  lon : List Int
  mld_dt_mean : List Int
deriving DecidableEq, Repr

/-- An xarray-style data set: data variables, coordinate variables, and the
size of the time dimension. -/
structure ObsDataset where
  timeDimSize : Nat
  dataVars : List (String × List Int)
  coords : List (String × List Int)
deriving DecidableEq, Repr

/-- Replace the values of variable `name` in an association list. -/
def setVals (vars : List (String × List Int)) (name : String)
    (vals : List Int) : List (String × List Int) :=
  vars.map fun p => if p.1 = name then (p.1, vals) else p

/-- Rename a variable in an association list. -/
def renameVar (vars : List (String × List Int)) (old new : String) :
    List (String × List Int) :=
  vars.map fun p => if p.1 = old then (new, p.2) else p

/-- First-match association lookup by variable name. -/
def lookupVar : List (String × List Int) → String → Option (List Int)
  | [], _ => none
  | (k, v) :: rest, name => if k = name then some v else lookupVar rest name

/-- Look a variable up across data variables and coordinates, as `ds[name]`
does in xarray. -/
def dsGet (ds : ObsDataset) (name : String) : List Int :=
  (lookupVar (ds.dataVars ++ ds.coords) name).getD []

/-- `ds.coords[name] = vals`: overwrite the coordinate if it exists, otherwise
add it. -/
def setCoord (ds : ObsDataset) (name : String) (vals : List Int) : ObsDataset :=
  if (lookupVar ds.coords name).isSome then
    { ds with coords := setVals ds.coords name vals }
  else
    { ds with coords := ds.coords ++ [(name, vals)] }

/-- `xr.open_dataset(fileName)` on the raw file: `month`, `lat`, `lon` and
`mld_dt_mean` are data variables; `iMONTH` names a dimension and a variable,
so xarray exposes it as a coordinate.  The `month` variable lives on the
`iMONTH` dimension, so that dimension's size is `month.length`. -/
def openRawMLD (raw : RawMLDFile) : ObsDataset :=
  { timeDimSize := raw.month.length
    dataVars := [("month", raw.month), ("lat", raw.lat), ("lon", raw.lon),
                 ("mld_dt_mean", raw.mld_dt_mean)]
    coords := [("iMONTH", raw.iMONTH)] }

/-- Modelled from the spec: `mpas_xarray.subset_variables` (in
`mpas_analysis/shared/mpas_xarray/`, which is not under `src/`) restricts the
data set to the named variables — "subsetting to just the variables needed".
Coordinates persist: the spec's normalization property simultaneously asserts
the surviving `year` and `month` coordinates and the `{mld, month}`
restriction, so the restriction applies to data variables. -/
def subset_variables (ds : ObsDataset) (vlist : List String) : ObsDataset :=
  { ds with dataVars := ds.dataVars.filter fun p => p.1 ∈ vlist }

/-- `build_observational_dataset` (lines 198-239), one step per source line:
increment the `iMONTH` values (line 222); rename the data variables
(lines 224-225) and `iMONTH` to `Time` (lines 226-227); set the `lat`, `lon`,
`Time` and `month` coordinates from `latCoord`, `lonCoord` and `calmonth`
(lines 230-233); set a constant `year` of 1 (line 236); subset to
`['mld', 'month']` (line 238). -/
def build_observational_dataset (raw : RawMLDFile) : ObsDataset :=
  let dsObs := openRawMLD raw
  -- dsObs.iMONTH.values += 1
  let dsObs := { dsObs with
    coords := setVals dsObs.coords "iMONTH"
      (((lookupVar dsObs.coords "iMONTH").getD []).map (· + 1)) }
  -- dsObs.rename({'month': 'calmonth', 'lat': 'latCoord',
  --               'lon': 'lonCoord', 'mld_dt_mean': 'mld'}, inplace=True)
  let dsObs := { dsObs with
    dataVars :=
      renameVar (renameVar (renameVar (renameVar dsObs.dataVars
        "month" "calmonth") "lat" "latCoord") "lon" "lonCoord")
        "mld_dt_mean" "mld" }
  -- dsObs.rename({'iMONTH': 'Time', 'iLAT': 'lat', 'iLON': 'lon'},
  --              inplace=True): renames the iMONTH coordinate variable and the
  -- dimensions (iLAT/iLON carry no variables here)
  let dsObs := { dsObs with coords := renameVar dsObs.coords "iMONTH" "Time" }
  -- dsObs.coords['lat'] = dsObs['latCoord']
  let dsObs := setCoord dsObs "lat" (dsGet dsObs "latCoord")
  -- dsObs.coords['lon'] = dsObs['lonCoord']
  let dsObs := setCoord dsObs "lon" (dsGet dsObs "lonCoord")
  -- dsObs.coords['Time'] = dsObs['calmonth']
  let dsObs := setCoord dsObs "Time" (dsGet dsObs "calmonth")
  -- dsObs.coords['month'] = ('Time', np.array(dsObs['calmonth'], int))
  let dsObs := setCoord dsObs "month" (dsGet dsObs "calmonth")
  -- dsObs.coords['year'] = ('Time', np.ones(dsObs.dims['Time'], int))
  let dsObs := setCoord dsObs "year" (List.replicate dsObs.timeDimSize 1)
  -- dsObs = mpas_xarray.subset_variables(dsObs, ['mld', 'month'])
  subset_variables dsObs ["mld", "month"]

/-- The values of a coordinate of the normalized data set. -/
def coordVals (ds : ObsDataset) (name : String) : List Int :=
  (lookupVar ds.coords name).getD []

/-- The calendar months 1..12 as they appear in the raw file's `month`
variable. -/
def monthsOneToTwelve : List Int :=
  [1, 2, 3, 4, 5, 6, 7, 8, 9, 10, 11, 12]

/-- The twelve shifted months 2..13 the claim expects. -/
def monthsTwoToThirteen : List Int :=
  [2, 3, 4, 5, 6, 7, 8, 9, 10, 11, 12, 13]

/-! ## _generate_thumbnails (image_xml.py, lines 171-220)

Pixel sizes are naturals; the scale factors, Python floats in the source, are
exact rationals here. -/

/-- A PIL image size, `image.size = (width, height)`. -/
structure ImageSize where
  width : Nat
  height : Nat
deriving DecidableEq, Repr

/-- `fixedWidth = 480` (line 178). -/
def fixedWidth : Nat := 480

/-- `fixedHeight = 360` (line 179). -/
def fixedHeight : Nat := 360

/-- Python's `int(x + 0.5)` for the nonnegative quantities involved:
truncation toward zero equals the floor. -/
def pyRound (q : Rat) : Int := ⌊q + 1/2⌋

/-- Lines 186-191: `'vert'` when the width is strictly below the height,
otherwise `'horiz'`. -/
def orientationOf (s : ImageSize) : String :=
  if s.width < s.height then "vert" else "horiz"

/-- Lines 186-191: the target height of the aspect-rate-preserving thumbnail,
480 for `'vert'`, 180 for `'horiz'`. -/
def thumbnailHeightOf (s : ImageSize) : Nat :=
  if s.width < s.height then 480 else 180

/-- Lines 194-195: `factor = image.size[1]/float(thumbnailHeight)` and
`size = [int(dim/factor + 0.5) for dim in image.size]`. -/
def aspectThumbnailSize (s : ImageSize) : Int × Int :=
  let factor : Rat := (s.height : Rat) / (thumbnailHeightOf s : Rat)
  (pyRound ((s.width : Rat) / factor), pyRound ((s.height : Rat) / factor))

/-- Line 200: `widthFactor = image.size[0]/float(fixedWidth)`. -/
def widthFactor (s : ImageSize) : Rat := (s.width : Rat) / (fixedWidth : Rat)

/-- Line 201: `heightFactor = image.size[1]/float(fixedHeight)`. -/
def heightFactor (s : ImageSize) : Rat := (s.height : Rat) / (fixedHeight : Rat)

/-- Lines 203-204: rescale by the smaller of the two factors. -/
def fixedScaledSize (s : ImageSize) : Int × Int :=
  let factor := min (widthFactor s) (heightFactor s)
  (pyRound ((s.width : Rat) / factor), pyRound ((s.height : Rat) / factor))

/-- Line 207: the branch taken for the fixed-size thumbnail.  `true` is the
`widthFactor <= heightFactor` branch, whose comment reads "crop out the top of
the thumbnail"; `false` is the `else` branch, "crop out the left side of the
thubnail" (sic). -/
def cropFromTop (s : ImageSize) : Bool :=
  widthFactor s ≤ heightFactor s

/-- Lines 209 and 216: both branches call
`thumbnail.crop([0, 0, fixedWidth, fixedHeight])`. -/
def cropBox (s : ImageSize) : Int × Int × Int × Int :=
  if cropFromTop s then
    (0, 0, (fixedWidth : Int), (fixedHeight : Int))
  else
    (0, 0, (fixedWidth : Int), (fixedHeight : Int))

/-- PIL `Image.crop([left, upper, right, lower])` returns an image of size
`(right - left, lower - upper)` (regions outside the source are padded). -/
def pilCropSize (box : Int × Int × Int × Int) : Int × Int :=
  (box.2.2.1 - box.1, box.2.2.2 - box.2.1)

/-- The pixel size of the fixed-size thumbnail written on line 218. -/
def fixedThumbnailSize (s : ImageSize) : Int × Int :=
  pilCropSize (cropBox s)

/-! ## _provenance_command and write_image_xml (image_xml.py, lines 13-168)

The `subprocess.Popen(['git', 'describe', '--always', '--dirty'])` call and
the other process-environment reads are effects; they enter the embedding as
explicit inputs.  A Python call either returns normally or raises; `PyOutcome`
captures the two cases. -/

/-- Outcome of a Python call: a normal return or a raised exception. -/
inductive PyOutcome (α : Type) where
  | ok (val : α)
  | raised (exc : String)
deriving DecidableEq, Repr

/-- What happened to the git subprocess: it ran and exited (with a return code
and captured stdout), or it could not be spawned at all (`Popen` raises, e.g.
`OSError` when no `git` executable exists). -/
inductive GitLookup where
  | exited (returncode : Int) (stdout : String)
  | spawnFailure (exc : String)
deriving DecidableEq, Repr

/-- `stdout.strip('\n')`: remove leading and trailing newline characters. -/
def stripNewlines (s : String) : String :=
  ⟨((s.data.dropWhile (· = '\n')).reverse.dropWhile (· = '\n')).reverse⟩

/-- Lines 160-166: the git hash recorded by `_provenance_command`.  The
`Popen`/`communicate` pair is unguarded in the source — no `try`/`except`
surrounds lines 160-162 — so a spawn failure propagates; only a nonzero
return code is handled, by substituting the fixed placeholder. -/
def gitDescribeHash : GitLookup → PyOutcome String
  | .exited returncode stdout =>
      if returncode = 0 then .ok (stripNewlines stdout)
      else .ok "git hash unavailable"
  | .spawnFailure exc => .raised exc

/-- The process-environment inputs of `_provenance_command` (lines 137-168). -/
structure ProvenanceEnv where
  argv : List String
  history : Option String
  cwd : String
  user : String
  curtime : String
  host : String
  git : GitLookup
deriving DecidableEq, Repr

/-- `_provenance_command` (lines 137-168) as the list of XML fields it appends
to the root element, or the exception it lets escape.  The current command
line is prepended to any supplied history (lines 145-150). -/
def provenance_command (env : ProvenanceEnv) : PyOutcome (List (String × String)) :=
  let call := String.intercalate " " env.argv
  let history :=
    match env.history with
    | none => call
    | some h => call ++ "; " ++ h
  match gitDescribeHash env.git with
  | .raised exc => .raised exc
  | .ok githash =>
      .ok [("history", history), ("cwd", env.cwd), ("user", env.user),
           ("curtime", env.curtime), ("host", env.host), ("githash", githash)]

/-- The kinds of `OSError` that `os.makedirs` can raise. -/
inductive OSErrorKind where
  | alreadyExists
  | permissionDenied
  | other (msg : String)
deriving DecidableEq, Repr

/-- The effect inputs and the arguments of `write_image_xml` that the claims
touch.  The `shutil.copyfile` and `Image.open` effects of the HTML branch are
modelled as succeeding, since no claim bears on their failure; the image read
by `_generate_thumbnails` has size `imageSize`. -/
structure WriteXmlEnv where
  filePrefixArg : String
  componentName : String
  componentSubdirectory : String
  galleryGroup : String
  groupLink : String
  generateHTML : Bool
  makedirsOutcome : Except OSErrorKind Unit
  imageSize : ImageSize
  prov : ProvenanceEnv
deriving Repr

/-- `write_image_xml` (lines 13-134) restricted to the fields the claims
inspect, as the list of XML tags written (in source order), or the exception
it lets escape.  Lines 111-114 wrap `os.makedirs` of the thumbnails directory
in `try ... except OSError: pass`, so every `OSError` outcome is swallowed;
the HTML branch then records the image size and orientation produced by
`_generate_thumbnails` (lines 121-126), and `_provenance_command` runs last
(line 128). -/
def write_image_xml (env : WriteXmlEnv) : PyOutcome (List (String × String)) :=
  let imageFileName := env.filePrefixArg ++ ".png"
  let baseFields :=
    [("imageFileName", imageFileName),
     ("componentName", env.componentName),
     ("componentSubdirectory", env.componentSubdirectory),
     ("galleryGroup", env.galleryGroup),
     ("groupLink", env.groupLink)]
  let htmlFields :=
    if env.generateHTML then
      -- try: os.makedirs('{componentDirectory}/thumbnails')
      -- except OSError: pass
      let _mkdirs : Unit :=
        match env.makedirsOutcome with
        | .ok _ => ()
        | .error _ => ()
      [("imageSize",
          toString env.imageSize.width ++ "x" ++ toString env.imageSize.height),
       ("orientation", orientationOf env.imageSize)]
    else []
  match provenance_command env.prov with
  | .raised exc => .raised exc
  | .ok provFields => .ok (baseFields ++ htmlFields ++ provFields)

/-! ## plot_1D (oned.py, lines 29-188)

The matplotlib figure is modelled by the sequence of draw commands the loop
issues, the legend decision, and the recorded title/labels.  Numeric data is
`Rat`; title and label text is `List Char`.  The Python loop indexes the
parallel input lists by `dsIndex`; `List.getD` models those in-range accesses
(the claims only instantiate lists of matching length, stated as
`plot1DWellFormed`). -/

/-- Modelled from the spec: `limit_title` lives in
`mpas_analysis/shared/plot/title.py`, which is not under `src/`.  Per the
spec, "a string longer than `maxTitleLength` is truncated and ends with an
ellipsis; a string at or under the limit is unchanged", the truncated string
being limited "to a maximum display length with a trailing ellipsis". -/
def limit_title (title : List Char) (max_title_length : Nat) : List Char :=
  if title.length ≤ max_title_length then title
  else title.take (max_title_length - 3) ++ ['.', '.', '.']

/-- The parallel per-series inputs of `plot_1D`.  A `none` entry of `xArrays`
is Python's `None` for that series; `none` for a whole style list is the
Python default `None` argument. -/
structure Plot1DInputs where
  xArrays : List (Option (List Rat))
  fieldArrays : List (List Rat)
  errArrays : List (Option (List Rat))
  lineColors : Option (List String)
  lineStyles : Option (List String)
  markers : Option (List (Option String))
  lineWidths : Option (List Rat)
  legendText : Option (List (Option (List Char)))
deriving DecidableEq, Repr

/-- One matplotlib call recorded by the loop: `plt.plot(...)` (line 149) or
`plt.fill_between(...)` (lines 152-155). -/
inductive DrawOp where
  | plotLine (x y : List Rat) (color : String) (linestyle : String)
      (marker : Option String) (linewidth : Rat) (label : Option (List Char))
  | fillBetween (x y1 y2 : List Rat) (facecolor : String)
deriving DecidableEq, Repr

/-- `styleAt o dflt dfltElem i`: the per-series style resolution pattern of
lines 132-147 — the fixed default when the style list is `None`, otherwise
the list entry at `dsIndex`. -/
def styleAt {α : Type} (o : Option (List α)) (dflt : α) (dfltElem : α)
    (i : Nat) : α :=
  match o with
  | none => dflt
  | some l => l.getD i dfltElem

/-- The draw commands the body of the `for dsIndex` loop (lines 118-155)
issues for one series: nothing when `xArrays[dsIndex]` is `None`
(the `continue` on line 123); otherwise one line — labelled with the
`limit_title`-processed legend entry (lines 125-130) — followed by the two
error fills when `errArray` is present (lines 151-155). -/
def seriesDrawOps (inp : Plot1DInputs) (maxTitleLength : Nat) (dsIndex : Nat) :
    List DrawOp :=
  match inp.xArrays.getD dsIndex none with
  | none => []
  | some xArray =>
    let fieldArray := inp.fieldArrays.getD dsIndex []
    let errArray := inp.errArrays.getD dsIndex none
    let label : Option (List Char) :=
      match inp.legendText with
      | none => none
      | some l =>
          match l.getD dsIndex none with
          | none => none
          | some lab => some (limit_title lab maxTitleLength)
    let color := styleAt inp.lineColors "k" "" dsIndex
    let linestyle := styleAt inp.lineStyles "-" "" dsIndex
    let marker := styleAt inp.markers none none dsIndex
    let linewidth := styleAt inp.lineWidths 1 0 dsIndex
    DrawOp.plotLine xArray fieldArray color linestyle marker linewidth label ::
      (match errArray with
       | none => []
       | some errArray =>
           [DrawOp.fillBetween xArray fieldArray
              (List.zipWith (· + ·) fieldArray errArray) color,
            DrawOp.fillBetween xArray fieldArray
              (List.zipWith (· - ·) fieldArray errArray) color])

/-- The `plotLegend` flag after the loop: it is set to `True` on every
iteration that reaches line 131, i.e. whenever `legendText` is not `None` and
the series was not skipped on line 123. -/
def plot1DLegendFlag (inp : Plot1DInputs) : Bool :=
  inp.legendText.isSome && inp.xArrays.any (fun x => x.isSome)

/-- The figure `plot_1D` renders, up to the parts no claim inspects (grid,
horizontal zero line, axis fonts, limits): the draw commands of the loop, in
order; whether `plt.legend()` is called (line 158: `plotLegend` and
`len(xArrays) > 1`); the `limit_title`-processed title (lines 169-171); the
axis labels; and the y-axis inversion flag. -/
structure Plot1DFigure where
  draws : List DrawOp
  legendDrawn : Bool
  title : Option (List Char)
  xlabel : Option (List Char)
  ylabel : Option (List Char)
  invertYAxis : Bool
deriving DecidableEq, Repr

/-- `plot_1D` (lines 29-188) as a pure function from its per-series inputs and
display arguments to the rendered figure. -/
def plot_1D (inp : Plot1DInputs) (title xlabel ylabel : Option (List Char))
    (invertYAxis : Bool) (maxTitleLength : Nat) : Plot1DFigure :=
  { draws := (List.range inp.xArrays.length).flatMap
      (seriesDrawOps inp maxTitleLength)
    legendDrawn := plot1DLegendFlag inp && decide (1 < inp.xArrays.length)
    title := title.map (fun t => limit_title t maxTitleLength)
    xlabel := xlabel
    ylabel := ylabel
    invertYAxis := invertYAxis }

/-- Parallel-list well-formedness: every per-series list has the length of
`xArrays`.  `plot_1D` callers pass parallel lists; Python would raise
`IndexError` otherwise. -/
def optLenOk {α : Type} (o : Option (List α)) (n : Nat) : Bool :=
  match o with
  | none => true
  | some l => l.length = n

/-- All parallel input lists of `plot_1D` have matching lengths. -/
def plot1DWellFormed (inp : Plot1DInputs) : Prop :=
  inp.fieldArrays.length = inp.xArrays.length ∧
  inp.errArrays.length = inp.xArrays.length ∧
  optLenOk inp.lineColors inp.xArrays.length = true ∧
  optLenOk inp.lineStyles inp.xArrays.length = true ∧
  optLenOk inp.markers inp.xArrays.length = true ∧
  optLenOk inp.lineWidths inp.xArrays.length = true ∧
  optLenOk inp.legendText inp.xArrays.length = true

instance (inp : Plot1DInputs) : Decidable (plot1DWellFormed inp) := by
  unfold plot1DWellFormed
  infer_instance

/-- Removing series `i` from every parallel input list of `plot_1D`. -/
def removeSeries (inp : Plot1DInputs) (i : Nat) : Plot1DInputs :=
  { xArrays := inp.xArrays.eraseIdx i
    fieldArrays := inp.fieldArrays.eraseIdx i
    errArrays := inp.errArrays.eraseIdx i
    lineColors := inp.lineColors.map (·.eraseIdx i)
    lineStyles := inp.lineStyles.map (·.eraseIdx i)
    markers := inp.markers.map (·.eraseIdx i)
    lineWidths := inp.lineWidths.map (·.eraseIdx i)
    legendText := inp.legendText.map (·.eraseIdx i) }

/-- First-match association lookup among the written XML fields. -/
def lookupStr : List (String × String) → String → Option String
  | [], _ => none
  | (k, v) :: rest, name => if k = name then some v else lookupStr rest name

/-! ## Concrete inputs used by counterexamples and witnesses -/

/-- A configuration whose `seasons` option resolves to the empty list. -/
def cfgEmptySeasons : MLDConfig :=
  { seasons := [], comparisonGrids := ["latlon"], mldSubdirectory := "/obs" }

/-- A small valid configuration: two seasons, one comparison grid. -/
def cfgSmall : MLDConfig :=
  { seasons := ["JFM", "ANN"], comparisonGrids := ["latlon"],
    mldSubdirectory := "/obs" }

/-- A raw observational file with `month` = 1..12 and the `iMONTH` index
variable holding the 0-based indices 0..11. -/
def rawHolteTalley : RawMLDFile :=
  { month := monthsOneToTwelve
    iMONTH := [0, 1, 2, 3, 4, 5, 6, 7, 8, 9, 10, 11]
    lat := [10, 20]
    lon := [30, 40]
    mld_dt_mean := [5, 6, 7] }

/-- A 480x720 image: strictly taller than the fixed 480x360 aspect. -/
def tallImage : ImageSize := { width := 480, height := 720 }

/-- A 960x360 image: strictly wider than the fixed 480x360 aspect. -/
def wideImage : ImageSize := { width := 960, height := 360 }

/-- A 500x500 square image. -/
def squareImage : ImageSize := { width := 500, height := 500 }

/-- A provenance environment in which the git subprocess cannot be spawned. -/
def provEnvNoGit : ProvenanceEnv :=
  { argv := ["mpas_analysis", "config.cfg"]
    history := none
    cwd := "/work"
    user := "analyst"
    curtime := "01/02/03 04:05"
    host := "node01"
    git := .spawnFailure "FileNotFoundError" }

/-- A provenance environment whose git subprocess ran and exited nonzero. -/
def provEnvExited : ProvenanceEnv :=
  { argv := ["mpas_analysis", "config.cfg"]
    history := some "earlier run"
    cwd := "/work"
    user := "analyst"
    curtime := "01/02/03 04:05"
    host := "node01"
    git := .exited 128 "fatal: not a git repository" }

/-- A `write_image_xml` environment with HTML generation enabled. -/
def xmlEnvHtml : WriteXmlEnv :=
  { filePrefixArg := "mld_JFM_latlon"
    componentName := "Ocean"
    componentSubdirectory := "ocean"
    galleryGroup := "Mixed-Layer Depth"
    groupLink := "mld"
    generateHTML := true
    makedirsOutcome := .ok ()
    imageSize := { width := 1000, height := 750 }
    prov := provEnvExited }

/-- Two-series `plot_1D` inputs whose second series has `xArrays[1] = None`. -/
def plotInpWithNone : Plot1DInputs :=
  { xArrays := [some [0], none]
    fieldArrays := [[1], []]
    errArrays := [none, none]
    lineColors := none
    lineStyles := none
    markers := none
    lineWidths := none
    legendText := some [some ['a'], none] }

/-! ## Claim C1 -/

/-- Claim C1, counterexample: on a configuration with empty `seasons`,
construction fails with the Python builtin `ValueError`
(climatology_map_mld.py, lines 67-69), not with a `ConfigurationError` as the
claim states. -/
theorem c1_counterexample :
    (climatologyMapMLD_init cfgEmptySeasons none).2 =
      Except.error (MLDError.ValueError
        ("config section climatologyMapMLD" ++
         " does not contain valid list of seasons")) ∧
    isConfigurationError (climatologyMapMLD_init cfgEmptySeasons none).2 =
      false := by
  exact ⟨rfl, rfl⟩

/-- Claim C1 (amended): for every configuration in which `seasons` or
`comparisonGrids` resolves to an empty list, `ClimatologyMapMLD.__init__`
fails with a `ValueError` (not a `ConfigurationError`), and the failure occurs
before any subtask is constructed or registered — the event trace is empty. -/
theorem c1_empty_config_fails_before_subtasks (config : MLDConfig)
    (ref : Option RefClimatologyTask)
    (h : config.seasons = [] ∨ config.comparisonGrids = []) :
    ∃ msg, climatologyMapMLD_init config ref =
      ([], Except.error (MLDError.ValueError msg)) := by
  rcases h with h | h
  · exact ⟨"config section climatologyMapMLD does not contain valid list" ++
      " of seasons", by simp [climatologyMapMLD_init, h]⟩
  · by_cases hs : config.seasons.length = 0
    · exact ⟨"config section climatologyMapMLD does not contain valid list" ++
        " of seasons", by simp [climatologyMapMLD_init, hs]⟩
    · exact ⟨"config section climatologyMapMLD does not contain valid list" ++
        " of comparison grids", by simp [climatologyMapMLD_init, hs, h]⟩

/-- Claim C1, witness: the amended theorem applied to the concrete empty
configuration. -/
theorem c1_witness :
    (cfgEmptySeasons.seasons = [] ∨ cfgEmptySeasons.comparisonGrids = []) ∧
    ∃ msg, climatologyMapMLD_init cfgEmptySeasons none =
      ([], Except.error (MLDError.ValueError msg)) :=
  ⟨Or.inl rfl,
   c1_empty_config_fails_before_subtasks cfgEmptySeasons none (Or.inl rfl)⟩

/-! ## Claim C2 -/

/-- Mapping the seasons loop body through the plot-pair projection yields the
(grid, season) pairs for one grid. -/
theorem filterMap_plotPair_seasons (g : String) (seasons : List String)
    (main : RemapMpasClimatologySubtaskData) (obs : Option RemapObsSubtaskData)
    (ref : Option RemapMpasClimatologySubtaskData) (info : PlotInfo) :
    ((seasons.map fun s =>
        MLDSubtask.plot s g main obs ref info).filterMap plotPairOf) =
      seasons.map fun s => (g, s) := by
  induction seasons with
  | nil => rfl
  | cons s ss ihs => simp [plotPairOf, ihs]

/-- Selecting the (grid, season) pairs out of the plot subtasks produced by the
nested loops returns exactly the cross-product, grids outer, seasons inner. -/
theorem filterMap_plotPair (grids seasons : List String)
    (main : RemapMpasClimatologySubtaskData) (obs : Option RemapObsSubtaskData)
    (ref : Option RemapMpasClimatologySubtaskData) (info : PlotInfo) :
    ((grids.flatMap fun g => seasons.map fun s =>
        MLDSubtask.plot s g main obs ref info).filterMap plotPairOf) =
      grids.flatMap fun g => seasons.map fun s => (g, s) := by
  induction grids with
  | nil => rfl
  | cons g gs ih =>
      simp only [List.flatMap_cons, List.filterMap_append, ih,
        filterMap_plotPair_seasons]

/-- The nested loops produce one element per (grid, season) pair. -/
theorem length_flatMap_map {α β γ : Type} (l : List α) (s : List β)
    (f : α → β → γ) :
    (l.flatMap fun a => s.map (f a)).length = l.length * s.length := by
  induction l with
  | nil => simp
  | cons a l ih =>
      simp only [List.flatMap_cons, List.length_append, ih, List.length_map,
        List.length_cons]
      ring

/-- Claim C2 (confirmed): for every valid configuration with N comparison grid
names and M seasons, `ClimatologyMapMLD.__init__` registers exactly N*M plot
subtasks as children, one per (comparisonGridName, season) pair of the
cross-product (climatology_map_mld.py, lines 131-154). -/
theorem c2_plot_subtask_cross_product (config : MLDConfig)
    (ref : Option RefClimatologyTask) (ev : List SubtaskEvent)
    (t : ClimatologyMapMLDTask)
    (h : climatologyMapMLD_init config ref = (ev, Except.ok t)) :
    t.subtasks.filterMap plotPairOf =
      (config.comparisonGrids.flatMap fun g =>
        config.seasons.map fun s => (g, s)) ∧
    (t.subtasks.filterMap plotPairOf).length =
      config.comparisonGrids.length * config.seasons.length := by
  by_cases hs' : config.seasons.length = 0
  · simp [climatologyMapMLD_init, hs'] at h
  by_cases hg' : config.comparisonGrids.length = 0
  · simp [climatologyMapMLD_init, hs', hg'] at h
  cases ref with
  | none =>
      simp only [climatologyMapMLD_init, if_neg hs', if_neg hg',
        Prod.mk.injEq, Except.ok.injEq] at h
      obtain ⟨-, ht⟩ := h
      have h1 : t.subtasks.filterMap plotPairOf =
          (config.comparisonGrids.flatMap fun g =>
            config.seasons.map fun s => (g, s)) := by
        rw [← ht]
        simp [plotPairOf, filterMap_plotPair]
      refine ⟨h1, ?_⟩
      rw [h1]
      exact length_flatMap_map _ _ _
  | some refTask =>
      simp only [climatologyMapMLD_init, if_neg hs', if_neg hg',
        Prod.mk.injEq, Except.ok.injEq] at h
      obtain ⟨-, ht⟩ := h
      have h1 : t.subtasks.filterMap plotPairOf =
          (config.comparisonGrids.flatMap fun g =>
            config.seasons.map fun s => (g, s)) := by
        rw [← ht]
        simp [filterMap_plotPair]
      refine ⟨h1, ?_⟩
      rw [h1]
      exact length_flatMap_map _ _ _

/-- Claim C2, witness: the theorem applied to the configuration with one grid
and two seasons, in observation mode, for which construction produces a task
with exactly 1 * 2 plot subtasks. -/
theorem c2_witness :
    ∃ ev t, climatologyMapMLD_init cfgSmall none = (ev, Except.ok t) ∧
      t.subtasks.filterMap plotPairOf =
        (cfgSmall.comparisonGrids.flatMap fun g =>
          cfgSmall.seasons.map fun s => (g, s)) ∧
      (t.subtasks.filterMap plotPairOf).length =
        cfgSmall.comparisonGrids.length * cfgSmall.seasons.length := by
  refine ⟨_, _, rfl, ?_⟩
  exact c2_plot_subtask_cross_product cfgSmall none _ _ rfl

/-! ## Claim C3 -/

/-- Claim C3 (confirmed): every successful construction builds the primary-run
remap subtask unconditionally (climatology_map_mld.py, line 80), and exactly
one comparison remap subtask: with no reference task the observation subtask
is built and the reference slot is `None` (lines 89-106); with a reference
task the reference subtask is built and the observation slot is `None`
(lines 112-121). -/
theorem c3_comparison_mode_exclusivity (config : MLDConfig)
    (ref : Option RefClimatologyTask) (ev : List SubtaskEvent)
    (t : ClimatologyMapMLDTask)
    (h : climatologyMapMLD_init config ref = (ev, Except.ok t)) :
    SubtaskEvent.constructedRemapMpas ∈ ev ∧
    t.remapClimatologySubtask =
      { climatologyName := "mld"
        variableList := ["timeMonthly_avg_dThreshMLD"]
        comparisonGridNames := config.comparisonGrids
        seasons := config.seasons } ∧
    (ref = none →
      t.remapObservationsSubtask.isSome = true ∧
      t.remapRefClimatologySubtask = none) ∧
    (∀ r, ref = some r →
      t.remapRefClimatologySubtask.isSome = true ∧
      t.remapObservationsSubtask = none) := by
  by_cases hs' : config.seasons.length = 0
  · simp [climatologyMapMLD_init, hs'] at h
  by_cases hg' : config.comparisonGrids.length = 0
  · simp [climatologyMapMLD_init, hs', hg'] at h
  cases ref with
  | none =>
      simp only [climatologyMapMLD_init, if_neg hs', if_neg hg',
        Prod.mk.injEq, Except.ok.injEq] at h
      obtain ⟨hev, ht⟩ := h
      subst ht
      refine ⟨?_, rfl, ?_, ?_⟩
      · rw [← hev]
        simp
      · intro hn
        exact ⟨rfl, rfl⟩
      · intro r hr
        cases hr
  | some refTask =>
      simp only [climatologyMapMLD_init, if_neg hs', if_neg hg',
        Prod.mk.injEq, Except.ok.injEq] at h
      obtain ⟨hev, ht⟩ := h
      subst ht
      refine ⟨?_, rfl, ?_, ?_⟩
      · rw [← hev]
        simp
      · intro hn
        cases hn
      · intro r hr
        exact ⟨rfl, rfl⟩

/-! ## Helper lemmas for the thumbnail geometry -/

/-- Python's rounded int of an integral rational is that integer. -/
theorem pyRound_natCast (n : Nat) : pyRound (n : Rat) = (n : Int) := by
  unfold pyRound
  rw [Int.floor_eq_iff]
  constructor
  · push_cast
    linarith
  · push_cast
    linarith

/-- `pyRound` is monotone. -/
theorem pyRound_mono {a b : Rat} (h : a ≤ b) : pyRound a ≤ pyRound b :=
  Int.floor_le_floor (add_le_add_right h _)

/-- Self-division cancellation for the thumbnail scale factors. -/
theorem div_div_self_cancel {q t : Rat} (hq : q ≠ 0) : q / (q / t) = t := by
  rw [div_div_eq_mul_div, mul_comm, mul_div_assoc, div_self hq, mul_one]

/-! ## Claim C4 -/

/-- Claim C4, counterexample: on a raw file with `month` = 1..12 and the
integer month index variable `iMONTH` = 0..11, the normalized data set's
`month` coordinate is [1..12], not the [2..13] the claim states.  The `+= 1`
of line 222 is applied to `iMONTH`, but line 232 (`dsObs.coords['Time'] =
dsObs['calmonth']`) overwrites the renamed `iMONTH` values with the original
`month` values, so the increment never reaches the returned data set. -/
theorem c4_counterexample :
    coordVals (build_observational_dataset rawHolteTalley) "month" =
      monthsOneToTwelve ∧
    coordVals (build_observational_dataset rawHolteTalley) "month" ≠
      monthsTwoToThirteen := by
  exact ⟨by decide, by decide⟩

/-- Claim C4 (amended): for every raw observational file whose `month`
variable is [1..12] (any `iMONTH`, `lat`, `lon`, `mld_dt_mean` payloads),
`build_observational_dataset` returns a data set with a `Time` dimension of
size 12 whose `month` coordinate values are [1..12] — the original month
values, because the +1 increment is applied to the `iMONTH` index variable
whose values are then overwritten by the `calmonth` coordinate assignment —
whose `Time` coordinate equals those same values, whose `year` coordinate is
constantly 1 for all 12 entries, and whose data variables are restricted to
exactly {`mld`}, with `Time`, `lat`, `lon`, `month` and `year` kept as
coordinates. -/
theorem c4_observational_normalization (raw : RawMLDFile)
    (h : raw.month = monthsOneToTwelve) :
    (build_observational_dataset raw).timeDimSize = 12 ∧
    coordVals (build_observational_dataset raw) "month" = monthsOneToTwelve ∧
    coordVals (build_observational_dataset raw) "Time" = monthsOneToTwelve ∧
    coordVals (build_observational_dataset raw) "year" =
      List.replicate 12 (1 : Int) ∧
    (build_observational_dataset raw).dataVars.map Prod.fst = ["mld"] ∧
    (build_observational_dataset raw).coords.map Prod.fst =
      ["Time", "lat", "lon", "month", "year"] := by
  obtain ⟨mo, iM, la, lo, ml⟩ := raw
  simp only [RawMLDFile.month] at h
  subst h
  refine ⟨rfl, ?_, ?_, rfl, rfl, rfl⟩ <;>
    simp [build_observational_dataset, openRawMLD, setVals, renameVar,
      setCoord, dsGet, lookupVar, subset_variables, coordVals,
      monthsOneToTwelve]

/-- Claim C4, witness: the amended theorem applied to the concrete raw file. -/
theorem c4_witness :
    rawHolteTalley.month = monthsOneToTwelve ∧
    ((build_observational_dataset rawHolteTalley).timeDimSize = 12 ∧
     coordVals (build_observational_dataset rawHolteTalley) "month" =
       monthsOneToTwelve ∧
     coordVals (build_observational_dataset rawHolteTalley) "Time" =
       monthsOneToTwelve ∧
     coordVals (build_observational_dataset rawHolteTalley) "year" =
       List.replicate 12 (1 : Int) ∧
     (build_observational_dataset rawHolteTalley).dataVars.map Prod.fst =
       ["mld"] ∧
     (build_observational_dataset rawHolteTalley).coords.map Prod.fst =
       ["Time", "lat", "lon", "month", "year"]) :=
  ⟨rfl, c4_observational_normalization rawHolteTalley rfl⟩

/-- Claim C3, witness: the theorem applied to the small configuration in
reference-run mode. -/
theorem c3_witness :
    ∃ ev t,
      climatologyMapMLD_init cfgSmall (some { mainRunName := "refRun" }) =
        (ev, Except.ok t) ∧
      SubtaskEvent.constructedRemapMpas ∈ ev ∧
      t.remapClimatologySubtask =
        { climatologyName := "mld"
          variableList := ["timeMonthly_avg_dThreshMLD"]
          comparisonGridNames := cfgSmall.comparisonGrids
          seasons := cfgSmall.seasons } ∧
      (∀ r, (some { mainRunName := "refRun" } : Option RefClimatologyTask) =
          some r →
        t.remapRefClimatologySubtask.isSome = true ∧
        t.remapObservationsSubtask = none) := by
  refine ⟨_, _, rfl, ?_⟩
  have h := c3_comparison_mode_exclusivity cfgSmall
    (some { mainRunName := "refRun" }) _ _ rfl
  exact ⟨h.1, h.2.1, h.2.2.2⟩

/-! ## Claim C5 -/

/-- Claim C5, counterexample: the 480x720 image is strictly taller than the
fixed 480x360 aspect (its width factor 1 is strictly below its height factor
2), yet the code takes the `widthFactor <= heightFactor` branch, the one whose
comment says "crop out the top": the rescaled image is 480x720 — full target
width — and the fixed `[0, 0, 480, 360]` crop box trims its bottom half, not
its left-right extent, contradicting the claim that an image taller than the
fixed aspect "is cropped from the left". -/
theorem c5_counterexample :
    widthFactor tallImage < heightFactor tallImage ∧
    cropFromTop tallImage = true ∧
    fixedScaledSize tallImage = (480, 720) ∧
    fixedThumbnailSize tallImage = (480, 360) := by
  refine ⟨?_, ?_, ?_, ?_⟩
  · show (480 : Rat) / 480 < (720 : Rat) / 360
    norm_num
  · simp only [cropFromTop, widthFactor, heightFactor, fixedWidth, fixedHeight,
      tallImage]
    norm_num
  · simp only [fixedScaledSize, cropFromTop, widthFactor, heightFactor,
      fixedWidth, fixedHeight, tallImage, pyRound, min_def]
    norm_num
  · simp only [fixedThumbnailSize, cropBox, pilCropSize, ite_self, fixedWidth,
      fixedHeight]
    norm_num

/-- Claim C5 (amended): the `widthFactor <= heightFactor` branch — taken
exactly when the image is at least as tall, relative to its width, as the
fixed 480x360 aspect (3*width <= 4*height) — rescales to the full fixed width
of 480 with height at least 360, so the fixed crop box trims the bottom
("crops from the top"); the other branch, taken exactly when the image is
strictly wider than the fixed aspect, rescales to the full fixed height of
360 with width at least 480, so the crop box trims the right ("crops from the
left").  In both cases the crop box is `[0, 0, 480, 360]` and the resulting
thumbnail measures exactly 480x360. -/
theorem c5_fixed_thumbnail_geometry (s : ImageSize)
    (hw : 0 < s.width) (hh : 0 < s.height) :
    (cropFromTop s = true ↔ 3 * s.width ≤ 4 * s.height) ∧
    (cropFromTop s = true →
      (fixedScaledSize s).1 = 480 ∧ 360 ≤ (fixedScaledSize s).2) ∧
    (cropFromTop s = false →
      (fixedScaledSize s).2 = 360 ∧ 480 ≤ (fixedScaledSize s).1) ∧
    fixedThumbnailSize s = (480, 360) := by
  have hwq : (0 : Rat) < (s.width : Rat) := by exact_mod_cast hw
  have hhq : (0 : Rat) < (s.height : Rat) := by exact_mod_cast hh
  have hiff : widthFactor s ≤ heightFactor s ↔ 3 * s.width ≤ 4 * s.height := by
    unfold widthFactor heightFactor fixedWidth fixedHeight
    rw [div_le_div_iff₀ (by norm_num) (by norm_num)]
    constructor
    · intro h1
      have h2 : s.width * 360 ≤ s.height * 480 := by exact_mod_cast h1
      omega
    · intro h1
      have h2 : s.width * 360 ≤ s.height * 480 := by omega
      exact_mod_cast h2
  refine ⟨?_, ?_, ?_, ?_⟩
  · simpa [cropFromTop] using hiff
  · intro hc
    have hle : widthFactor s ≤ heightFactor s := by
      simpa [cropFromTop] using hc
    have hmin : min (widthFactor s) (heightFactor s) = widthFactor s :=
      min_eq_left hle
    have hwne : (s.width : Rat) ≠ 0 := ne_of_gt hwq
    constructor
    · show pyRound ((s.width : Rat) / min (widthFactor s) (heightFactor s)) =
        480
      rw [hmin]
      unfold widthFactor fixedWidth
      rw [div_div_self_cancel hwne]
      exact pyRound_natCast 480
    · show (360 : Int) ≤
        pyRound ((s.height : Rat) / min (widthFactor s) (heightFactor s))
      rw [hmin]
      unfold widthFactor fixedWidth
      have h360 : (360 : Rat) ≤ (s.height : Rat) / ((s.width : Rat) / 480) := by
        rw [div_div_eq_mul_div, le_div_iff₀ hwq]
        have h2 : 3 * s.width ≤ 4 * s.height := hiff.mp hle
        have h3 : (s.width : Rat) * 360 ≤ (s.height : Rat) * 480 := by
          have h4 : s.width * 360 ≤ s.height * 480 := by omega
          exact_mod_cast h4
        linarith
      calc (360 : Int) = pyRound ((360 : Nat) : Rat) :=
            (pyRound_natCast 360).symm
        _ ≤ _ := pyRound_mono (by exact_mod_cast h360)
  · intro hc
    have hnle : ¬widthFactor s ≤ heightFactor s := by
      simpa [cropFromTop] using hc
    have hlt : heightFactor s < widthFactor s := lt_of_not_le hnle
    have hmin : min (widthFactor s) (heightFactor s) = heightFactor s :=
      min_eq_right (le_of_lt hlt)
    have hhne : (s.height : Rat) ≠ 0 := ne_of_gt hhq
    constructor
    · show pyRound ((s.height : Rat) / min (widthFactor s) (heightFactor s)) =
        360
      rw [hmin]
      unfold heightFactor fixedHeight
      rw [div_div_self_cancel hhne]
      exact pyRound_natCast 360
    · show (480 : Int) ≤
        pyRound ((s.width : Rat) / min (widthFactor s) (heightFactor s))
      rw [hmin]
      unfold heightFactor fixedHeight
      have h480 : (480 : Rat) ≤ (s.width : Rat) / ((s.height : Rat) / 360) := by
        rw [div_div_eq_mul_div, le_div_iff₀ hhq]
        have h2 : heightFactor s ≤ widthFactor s := le_of_lt hlt
        unfold widthFactor heightFactor fixedWidth fixedHeight at h2
        rw [div_le_div_iff₀ (by norm_num) (by norm_num)] at h2
        push_cast at h2 ⊢
        linarith
      calc (480 : Int) = pyRound ((480 : Nat) : Rat) :=
            (pyRound_natCast 480).symm
        _ ≤ _ := pyRound_mono (by exact_mod_cast h480)
  · simp only [fixedThumbnailSize, cropBox, pilCropSize, ite_self, fixedWidth,
      fixedHeight]
    norm_num

/-- Claim C5, witness: the amended theorem applied to the 960x360 image, which
is strictly wider than the fixed aspect and lands in the left-crop branch. -/
theorem c5_witness :
    0 < wideImage.width ∧ 0 < wideImage.height ∧
    ((cropFromTop wideImage = true ↔
        3 * wideImage.width ≤ 4 * wideImage.height) ∧
     (cropFromTop wideImage = true →
       (fixedScaledSize wideImage).1 = 480 ∧
       360 ≤ (fixedScaledSize wideImage).2) ∧
     (cropFromTop wideImage = false →
       (fixedScaledSize wideImage).2 = 360 ∧
       480 ≤ (fixedScaledSize wideImage).1) ∧
     fixedThumbnailSize wideImage = (480, 360)) :=
  ⟨by norm_num [wideImage], by norm_num [wideImage],
   c5_fixed_thumbnail_geometry wideImage (by norm_num [wideImage])
     (by norm_num [wideImage])⟩

/-! ## Claim C10 -/

/-- Claim C10 (confirmed): `_generate_thumbnails` records orientation `'vert'`
exactly when the image's width is strictly less than its height
(image_xml.py, line 186), so a square image is recorded `'horiz'`; and the
aspect-preserving thumbnail's height is exactly 480 pixels for `'vert'`
images and exactly 180 pixels for `'horiz'` images (lines 188, 191, 194-195:
`factor = height/thumbnailHeight` makes the scaled height
`int(height/factor + 0.5) = thumbnailHeight`). -/
theorem c10_orientation_and_aspect_height (s : ImageSize)
    (hh : 0 < s.height) :
    (orientationOf s = "vert" ↔ s.width < s.height) ∧
    (s.width = s.height → orientationOf s = "horiz") ∧
    (orientationOf s = "vert" → (aspectThumbnailSize s).2 = 480) ∧
    (orientationOf s = "horiz" → (aspectThumbnailSize s).2 = 180) := by
  have hhne : (s.height : Rat) ≠ 0 := by
    exact_mod_cast Nat.pos_iff_ne_zero.mp hh
  have hkey : ∀ T : Nat,
      pyRound ((s.height : Rat) / ((s.height : Rat) / (T : Rat))) = T := by
    intro T
    rw [div_div_self_cancel hhne]
    exact pyRound_natCast T
  by_cases hlt : s.width < s.height
  · refine ⟨by simp [orientationOf, hlt], ?_, ?_, ?_⟩
    · intro he
      omega
    · intro _
      show pyRound ((s.height : Rat) / ((s.height : Rat) /
        ((thumbnailHeightOf s : Nat) : Rat))) = 480
      rw [hkey]
      simp [thumbnailHeightOf, hlt]
    · intro hor
      simp [orientationOf, hlt] at hor
  · refine ⟨by simp [orientationOf, hlt], fun _ => by simp [orientationOf, hlt],
      ?_, ?_⟩
    · intro hor
      simp [orientationOf, hlt] at hor
    · intro _
      show pyRound ((s.height : Rat) / ((s.height : Rat) /
        ((thumbnailHeightOf s : Nat) : Rat))) = 180
      rw [hkey]
      simp [thumbnailHeightOf, hlt]

/-- Claim C10, witness: the theorem applied to the 500x500 square image, which
is recorded `'horiz'` with an aspect-thumbnail height of exactly 180. -/
theorem c10_witness :
    0 < squareImage.height ∧
    ((orientationOf squareImage = "vert" ↔
        squareImage.width < squareImage.height) ∧
     (squareImage.width = squareImage.height →
        orientationOf squareImage = "horiz") ∧
     (orientationOf squareImage = "vert" →
        (aspectThumbnailSize squareImage).2 = 480) ∧
     (orientationOf squareImage = "horiz" →
        (aspectThumbnailSize squareImage).2 = 180)) :=
  ⟨by norm_num [squareImage],
   c10_orientation_and_aspect_height squareImage (by norm_num [squareImage])⟩

/-! ## Claim C6 -/

/-- Claim C6, counterexample: when the revision lookup cannot run at all —
`subprocess.Popen` raises because no git executable can be spawned — the
exception escapes `_provenance_command` to the caller (image_xml.py has no
`try`/`except` around lines 160-162), contradicting the claim that no
exception is raised and the placeholder is used. -/
theorem c6_counterexample :
    provenance_command provEnvNoGit = PyOutcome.raised "FileNotFoundError" :=
  rfl

/-- Claim C6 (amended): if the git subprocess runs and exits with a nonzero
return code, the `githash` field is the fixed placeholder string
`'git hash unavailable'` and no exception reaches the caller (image_xml.py,
lines 163-166); but if the subprocess cannot be spawned at all, the exception
propagates — the `Popen` call is unguarded. -/
theorem c6_githash_fallback (env : ProvenanceEnv) :
    (∀ rc out, env.git = GitLookup.exited rc out → rc ≠ 0 →
      ∃ fields, provenance_command env = PyOutcome.ok fields ∧
        lookupStr fields "githash" = some "git hash unavailable") ∧
    (∀ exc, env.git = GitLookup.spawnFailure exc →
      provenance_command env = PyOutcome.raised exc) := by
  constructor
  · intro rc out hgit hrc
    unfold provenance_command gitDescribeHash
    rw [hgit]
    simp only [if_neg hrc]
    exact ⟨_, rfl, rfl⟩
  · intro exc hgit
    unfold provenance_command gitDescribeHash
    rw [hgit]

/-- Claim C6, witness: the amended theorem applied to the environment whose
git subprocess exited with return code 128. -/
theorem c6_witness :
    provEnvExited.git =
      GitLookup.exited 128 "fatal: not a git repository" ∧
    (128 : Int) ≠ 0 ∧
    ∃ fields, provenance_command provEnvExited = PyOutcome.ok fields ∧
      lookupStr fields "githash" = some "git hash unavailable" :=
  ⟨rfl, by decide,
   (c6_githash_fallback provEnvExited).1 128 "fatal: not a git repository"
     rfl (by decide)⟩

/-! ## Claim C8 -/

/-- Claim C8 (confirmed): when HTML generation is on and the creation of the
thumbnails directory fails because it already exists, `write_image_xml`
behaves exactly as if the creation had succeeded — the `OSError` is swallowed
by the `try ... except OSError: pass` of image_xml.py lines 111-114, and the
function continues normally. -/
theorem c8_makedirs_race_ok (env : WriteXmlEnv)
    (_h : env.generateHTML = true) :
    write_image_xml { env with makedirsOutcome := .error .alreadyExists } =
      write_image_xml { env with makedirsOutcome := .ok () } := by
  rfl

/-- Claim C8, witness: the theorem applied to the concrete HTML-enabled
environment. -/
theorem c8_witness :
    xmlEnvHtml.generateHTML = true ∧
    write_image_xml { xmlEnvHtml with makedirsOutcome := .error .alreadyExists } =
      write_image_xml { xmlEnvHtml with makedirsOutcome := .ok () } :=
  ⟨rfl, c8_makedirs_race_ok xmlEnvHtml rfl⟩

/-! ## Claim C7 -/

/-- A string at or under the limit is returned unchanged. -/
theorem limit_title_short {t : List Char} {m : Nat} (h : t.length ≤ m) :
    limit_title t m = t := by
  unfold limit_title
  rw [if_pos h]

/-- A string strictly over the limit is cut to exactly the limit and ends in
the three-dot ellipsis. -/
theorem limit_title_long {t : List Char} {m : Nat} (hm : 3 ≤ m)
    (h : m < t.length) :
    (limit_title t m).length = m ∧ ['.', '.', '.'] <:+ limit_title t m := by
  unfold limit_title
  rw [if_neg (by omega)]
  refine ⟨?_, List.suffix_append _ _⟩
  rw [List.length_append, List.length_take]
  simp only [List.length_cons, List.length_nil]
  omega

/-- Claim C7 (confirmed): every title and every legend label `plot_1D` renders
goes through `limit_title` with `maxTitleLength` (oned.py, lines 129-130 and
169-171), and `limit_title` leaves a string of length at most
`maxTitleLength` unchanged while cutting a longer string to exactly
`maxTitleLength` characters ending in an ellipsis.  (`limit_title` itself is
modelled from the spec; see its definition.) -/
theorem c7_title_truncation (m : Nat) (t lab : List Char)
    (inp : Plot1DInputs) (i : Nat) (xs : List Rat)
    (lts : List (Option (List Char)))
    (xlbl ylbl : Option (List Char)) (inv : Bool)
    (hm : 3 ≤ m)
    (hx : inp.xArrays.getD i none = some xs)
    (hlts : inp.legendText = some lts)
    (hlab : lts.getD i none = some lab) :
    (plot_1D inp (some t) xlbl ylbl inv m).title = some (limit_title t m) ∧
    (∃ rest color linestyle marker linewidth,
      seriesDrawOps inp m i =
        DrawOp.plotLine xs (inp.fieldArrays.getD i []) color linestyle marker
          linewidth (some (limit_title lab m)) :: rest) ∧
    (t.length ≤ m → limit_title t m = t) ∧
    (m < t.length → (limit_title t m).length = m ∧
      ['.', '.', '.'] <:+ limit_title t m) ∧
    (lab.length ≤ m → limit_title lab m = lab) ∧
    (m < lab.length → (limit_title lab m).length = m ∧
      ['.', '.', '.'] <:+ limit_title lab m) := by
  refine ⟨rfl, ?_, fun h => limit_title_short h, fun h => limit_title_long hm h,
    fun h => limit_title_short h, fun h => limit_title_long hm h⟩
  simp only [seriesDrawOps, hx, hlts, hlab]
  exact ⟨_, _, _, _, _, rfl⟩

/-- Claim C7, witness: the theorem applied to the two-series concrete input,
a 5-character title and the 1-character label `'a'` with the default
`maxTitleLength` of 80. -/
theorem c7_witness :
    3 ≤ 80 ∧
    plotInpWithNone.xArrays.getD 0 none = some [0] ∧
    plotInpWithNone.legendText = some [some ['a'], none] ∧
    ([some ['a'], none].getD 0 none = some ['a']) ∧
    ((plot_1D plotInpWithNone (some ['t', 'i', 't', 'l', 'e']) none none
        false 80).title =
      some (limit_title ['t', 'i', 't', 'l', 'e'] 80) ∧
    (∃ rest color linestyle marker linewidth,
      seriesDrawOps plotInpWithNone 80 0 =
        DrawOp.plotLine [0] (plotInpWithNone.fieldArrays.getD 0 [])
          color linestyle marker linewidth (some (limit_title ['a'] 80)) ::
            rest) ∧
    (['t', 'i', 't', 'l', 'e'].length ≤ 80 →
      limit_title ['t', 'i', 't', 'l', 'e'] 80 = ['t', 'i', 't', 'l', 'e']) ∧
    (80 < ['t', 'i', 't', 'l', 'e'].length →
      (limit_title ['t', 'i', 't', 'l', 'e'] 80).length = 80 ∧
      ['.', '.', '.'] <:+ limit_title ['t', 'i', 't', 'l', 'e'] 80) ∧
    (['a'].length ≤ 80 → limit_title ['a'] 80 = ['a']) ∧
    (80 < ['a'].length → (limit_title ['a'] 80).length = 80 ∧
      ['.', '.', '.'] <:+ limit_title ['a'] 80)) :=
  ⟨by decide, by decide, rfl, by decide,
   c7_title_truncation 80 ['t', 'i', 't', 'l', 'e'] ['a'] plotInpWithNone 0
     [0] [some ['a'], none] none none false (by decide) (by decide) rfl
     (by decide)⟩

/-! ## Claim C9 -/

/-- Reading past a removed index shifts the parallel-list access by one. -/
theorem getD_eraseIdx {α : Type} (l : List α) (d : α) (i j : Nat)
    (hi : i < l.length) :
    (l.eraseIdx i).getD j d = if j < i then l.getD j d else l.getD (j + 1) d := by
  induction l generalizing i j with
  | nil => simp at hi
  | cons a tl ih =>
      cases i with
      | zero => simp
      | succ i' =>
          cases j with
          | zero => simp
          | succ j' =>
              simp only [List.eraseIdx_cons_succ, List.getD_cons_succ]
              rw [ih i' j' (by simpa using hi)]
              by_cases hji : j' < i'
              · rw [if_pos hji, if_pos (by omega)]
              · rw [if_neg hji, if_neg (by omega)]

/-- The style resolution of lines 132-147 commutes with removing a series. -/
theorem styleAt_eraseIdx {α : Type} (o : Option (List α)) (dflt de : α)
    (n i j : Nat) (hlen : optLenOk o n = true) (hi : i < n) :
    styleAt (o.map (·.eraseIdx i)) dflt de j =
      if j < i then styleAt o dflt de j else styleAt o dflt de (j + 1) := by
  cases o with
  | none => simp [styleAt]
  | some l =>
      have hl : l.length = n := by simpa [optLenOk] using hlen
      simp only [Option.map_some', styleAt]
      exact getD_eraseIdx l de i j (by omega)

/-- The loop body of lines 118-155 on the input with series `i` removed is the
loop body on the original input, with accesses beyond `i` shifted by one. -/
theorem seriesDrawOps_removeSeries (inp : Plot1DInputs) (m i j : Nat)
    (hwf : plot1DWellFormed inp) (hi : i < inp.xArrays.length) :
    seriesDrawOps (removeSeries inp i) m j =
      if j < i then seriesDrawOps inp m j else seriesDrawOps inp m (j + 1) := by
  obtain ⟨hf, he, hc, hs, hmk, hwd, hl⟩ := hwf
  have hx := getD_eraseIdx inp.xArrays none i j hi
  have hfa := getD_eraseIdx inp.fieldArrays [] i j (by omega)
  have her := getD_eraseIdx inp.errArrays none i j (by omega)
  have hcol := styleAt_eraseIdx inp.lineColors "k" "" inp.xArrays.length i j hc hi
  have hsty := styleAt_eraseIdx inp.lineStyles "-" "" inp.xArrays.length i j hs hi
  have hmrk := styleAt_eraseIdx inp.markers none none inp.xArrays.length i j hmk hi
  have hwid := styleAt_eraseIdx inp.lineWidths 1 0 inp.xArrays.length i j hwd hi
  by_cases hji : j < i
  · simp only [if_pos hji] at hx hfa her hcol hsty hmrk hwid ⊢
    cases hLT : inp.legendText with
    | none =>
        simp only [seriesDrawOps, removeSeries, hLT, Option.map_none', hx, hfa,
          her, hcol, hsty, hmrk, hwid]
    | some lts =>
        have hlleg := getD_eraseIdx lts none i j
          (by simp only [hLT, optLenOk, decide_eq_true_eq] at hl; omega)
        simp only [if_pos hji] at hlleg
        simp only [seriesDrawOps, removeSeries, hLT, Option.map_some', hx, hfa,
          her, hcol, hsty, hmrk, hwid, hlleg]
  · simp only [if_neg hji] at hx hfa her hcol hsty hmrk hwid ⊢
    cases hLT : inp.legendText with
    | none =>
        simp only [seriesDrawOps, removeSeries, hLT, Option.map_none', hx, hfa,
          her, hcol, hsty, hmrk, hwid]
    | some lts =>
        have hlleg := getD_eraseIdx lts none i j
          (by simp only [hLT, optLenOk, decide_eq_true_eq] at hl; omega)
        simp only [if_neg hji] at hlleg
        simp only [seriesDrawOps, removeSeries, hLT, Option.map_some', hx, hfa,
          her, hcol, hsty, hmrk, hwid, hlleg]

/-- Dropping a loop iteration that contributes nothing: iterating the loop
body over `0..n-2` with accesses shifted past `i` equals iterating the
original body over `0..n-1` when iteration `i` produces no draw commands. -/
theorem range_flatMap_skip {β : Type} (f g : Nat → List β) (n i : Nat)
    (hi : i < n) (hfi : f i = [])
    (hshift : ∀ j, g j = if j < i then f j else f (j + 1)) :
    (List.range (n - 1)).flatMap g = (List.range n).flatMap f := by
  obtain ⟨k, rfl⟩ : ∃ k, n = i + (1 + k) := ⟨n - i - 1, by omega⟩
  have hn1 : i + (1 + k) - 1 = i + k := by omega
  rw [hn1, List.range_add, List.range_add, List.flatMap_append,
    List.flatMap_append]
  have h1 : (List.range i).flatMap g = (List.range i).flatMap f := by
    apply List.flatMap_congr
    intro x hx
    rw [hshift x, if_pos (List.mem_range.mp hx)]
  have h2 : ((List.range k).map (i + ·)).flatMap g =
      ((List.range (1 + k)).map (i + ·)).flatMap f := by
    have hr1k : List.range (1 + k) = 0 :: (List.range k).map (1 + ·) := by
      rw [List.range_add]
      rfl
    rw [hr1k]
    simp only [List.map_cons, List.flatMap_cons, Nat.add_zero, hfi,
      List.nil_append, List.map_map, List.flatMap_map]
    apply List.flatMap_congr
    intro x hx
    simp only [Function.comp_apply]
    rw [hshift (i + x), if_neg (by omega)]
    congr 1
    omega
  rw [h1, h2]

/-- Removing a series whose x-array is `None` does not change whether some
series has a present x-array. -/
theorem any_isSome_eraseIdx {α : Type} (xs : List (Option α)) (i : Nat)
    (hi : i < xs.length) (hx : xs.getD i none = none) :
    (xs.eraseIdx i).any (fun x => x.isSome) = xs.any (fun x => x.isSome) := by
  induction xs generalizing i with
  | nil => simp at hi
  | cons a tl ih =>
      cases i with
      | zero =>
          have ha : a = none := by simpa using hx
          simp [ha]
      | succ i' =>
          simp only [List.eraseIdx_cons_succ, List.any_cons]
          rw [ih i' (by simpa using hi) (by simpa using hx)]

/-- Claim C9, counterexample: with two series, the second having
`xArrays[1] = None`, and `legendText` supplied, `plt.legend()` is called —
`plotLegend` is set by the first series and `len(xArrays) > 1` counts the
`None` series (oned.py, line 158) — but after removing the `None` series from
the parallel lists no legend is drawn (`len(xArrays) > 1` fails), so the
rendered figures differ, contradicting the claimed identity. -/
theorem c9_counterexample :
    plotInpWithNone.xArrays.getD 1 none = none ∧
    (plot_1D plotInpWithNone none none none false 80).legendDrawn = true ∧
    (plot_1D (removeSeries plotInpWithNone 1) none none none false
      80).legendDrawn = false ∧
    plot_1D plotInpWithNone none none none false 80 ≠
      plot_1D (removeSeries plotInpWithNone 1) none none none false 80 := by
  refine ⟨rfl, rfl, rfl, fun h => ?_⟩
  have h2 : (true : Bool) = false :=
    calc (true : Bool)
        = (plot_1D plotInpWithNone none none none false 80).legendDrawn := rfl
      _ = (plot_1D (removeSeries plotInpWithNone 1) none none none false
            80).legendDrawn := congrArg Plot1DFigure.legendDrawn h
      _ = false := rfl
  cases h2

/-- Claim C9 (amended): a series whose `xArrays` entry is `None` contributes
no draw command — no line, no error band, no legend label — and the figure's
draw commands, title, axis labels and inversion flag coincide with those of
the call with the series removed from the parallel input lists; but the
`None` series still counts toward the `len(xArrays) > 1` threshold of
oned.py line 158, so the removed-series figure draws its legend under the
threshold `1 < n - 1` instead of `1 < n`, and the rendered outputs can
differ in exactly that legend box. -/
theorem c9_none_series_contribution (inp : Plot1DInputs) (i m : Nat)
    (t xl yl : Option (List Char)) (inv : Bool)
    (hwf : plot1DWellFormed inp)
    (hi : i < inp.xArrays.length)
    (hx : inp.xArrays.getD i none = none) :
    seriesDrawOps inp m i = [] ∧
    (plot_1D (removeSeries inp i) t xl yl inv m).draws =
      (plot_1D inp t xl yl inv m).draws ∧
    plot1DLegendFlag (removeSeries inp i) = plot1DLegendFlag inp ∧
    (plot_1D (removeSeries inp i) t xl yl inv m).title =
      (plot_1D inp t xl yl inv m).title ∧
    (plot_1D (removeSeries inp i) t xl yl inv m).xlabel =
      (plot_1D inp t xl yl inv m).xlabel ∧
    (plot_1D (removeSeries inp i) t xl yl inv m).ylabel =
      (plot_1D inp t xl yl inv m).ylabel ∧
    (plot_1D (removeSeries inp i) t xl yl inv m).invertYAxis =
      (plot_1D inp t xl yl inv m).invertYAxis ∧
    (plot_1D (removeSeries inp i) t xl yl inv m).legendDrawn =
      (plot1DLegendFlag inp && decide (1 < inp.xArrays.length - 1)) := by
  have hops : seriesDrawOps inp m i = [] := by
    unfold seriesDrawOps
    rw [hx]
  have hlen : (removeSeries inp i).xArrays.length = inp.xArrays.length - 1 := by
    simp only [removeSeries]
    exact List.length_eraseIdx_of_lt hi
  have hflag : plot1DLegendFlag (removeSeries inp i) = plot1DLegendFlag inp := by
    have hiso : (Option.map (fun x => x.eraseIdx i) inp.legendText).isSome =
        inp.legendText.isSome := by
      cases inp.legendText <;> rfl
    unfold plot1DLegendFlag removeSeries
    rw [hiso, any_isSome_eraseIdx inp.xArrays i hi hx]
  refine ⟨hops, ?_, hflag, rfl, rfl, rfl, rfl, ?_⟩
  · show (List.range (removeSeries inp i).xArrays.length).flatMap
        (seriesDrawOps (removeSeries inp i) m) =
      (List.range inp.xArrays.length).flatMap (seriesDrawOps inp m)
    rw [hlen]
    exact range_flatMap_skip (seriesDrawOps inp m)
      (seriesDrawOps (removeSeries inp i) m) inp.xArrays.length i hi hops
      (fun j => seriesDrawOps_removeSeries inp m i j hwf hi)
  · show (plot1DLegendFlag (removeSeries inp i) &&
        decide (1 < (removeSeries inp i).xArrays.length)) = _
    rw [hflag, hlen]

/-- Claim C9, witness: the amended theorem applied to the two-series input
whose second series is `None`. -/
theorem c9_witness :
    plot1DWellFormed plotInpWithNone ∧
    1 < plotInpWithNone.xArrays.length ∧
    plotInpWithNone.xArrays.getD 1 none = none ∧
    (seriesDrawOps plotInpWithNone 80 1 = [] ∧
     (plot_1D (removeSeries plotInpWithNone 1) none none none false 80).draws =
       (plot_1D plotInpWithNone none none none false 80).draws ∧
     plot1DLegendFlag (removeSeries plotInpWithNone 1) =
       plot1DLegendFlag plotInpWithNone ∧
     (plot_1D (removeSeries plotInpWithNone 1) none none none false 80).title =
       (plot_1D plotInpWithNone none none none false 80).title ∧
     (plot_1D (removeSeries plotInpWithNone 1) none none none false
        80).xlabel =
       (plot_1D plotInpWithNone none none none false 80).xlabel ∧
     (plot_1D (removeSeries plotInpWithNone 1) none none none false
        80).ylabel =
       (plot_1D plotInpWithNone none none none false 80).ylabel ∧
     (plot_1D (removeSeries plotInpWithNone 1) none none none false
        80).invertYAxis =
       (plot_1D plotInpWithNone none none none false 80).invertYAxis ∧
     (plot_1D (removeSeries plotInpWithNone 1) none none none false
        80).legendDrawn =
       (plot1DLegendFlag plotInpWithNone &&
         decide (1 < plotInpWithNone.xArrays.length - 1))) :=
  ⟨by decide, by decide, by decide,
   c9_none_series_contribution plotInpWithNone 1 80 none none none false
     (by decide) (by decide) (by decide)⟩
